import Mathlib

/-!
Shallow embedding of the pi-bno055 register protocol driver
(`i2c_bno055.c`, `getbno055.c`, `getbno055.h`) and proofs about its
byte-level decoding, error handling and transition timing.

The I2C bus is modelled as a list of replies, one per `write`/`read`
system call the driver issues.  A reply to a `write` carries the number
of bytes the kernel reported as transferred; a reply to a `read` carries
the bytes delivered (the reported count is their length).  Device bytes
are `Fin 256`: `char` is unsigned on the driver's ARM/Linux target, so a
register byte read into a `char` buffer ranges over 0..255 (the project
readme shows raw offsets such as 65535 and 65448, confirming the
unsigned arithmetic).

Each embedded driver function also produces the list of bus operations
it attempted, in order, including the blocking delays (`usleep`/`sleep`)
it performs; `BusOp.sleepMs d` records a blocking sleep of `d`
milliseconds.  This trace is what the timing and framing claims are
stated against.
-/

namespace BNO055

/-! ### Register map constants (`getbno055.h`) -/

def BNO055_OPR_MODE_ADDR : Fin 256 := 0x3D

def BNO055_PWR_MODE_ADDR : Fin 256 := 0x3E

def BNO055_CHIP_ID_ADDR : Fin 256 := 0x00

/-- System-trigger (reset) register, `BNO055_SYS_TRIG_ADDR 0x3F` in
`getbno055.h` (spelled `BNO055_SYS_TRIGGER_ADDR` in `i2c_bno055.c`). -/
def BNO055_SYS_TRIGGER_ADDR : Fin 256 := 0x3F

def BNO055_PAGE_ID_ADDR : Fin 256 := 0x07

def BNO055_ID : Fin 256 := 0xA0

def POWER_MODE_NORMAL : Fin 256 := 0x00

/-- Modelled from the spec: the calibration-status register address
(`calibration-status 0x35` in the spec's register map); the constant
`BNO055_CALIB_STAT_ADDR` used by `i2c_bno055.c` is not defined in the
header revision under `src/`. -/
def BNO055_CALIB_STAT_ADDR : Fin 256 := 0x35

/-- Modelled from the spec: start of the calibration-offset block
(`calibration-offset block starting 0x55`); the constant
`ACCEL_OFFSET_X_LSB_ADDR` used by `i2c_bno055.c` is not defined in the
header revision under `src/`. -/
def ACCEL_OFFSET_X_LSB_ADDR : Fin 256 := 0x55

/-- Modelled from the spec: system-status register (`system-status 0x39`). -/
def BNO055_SYS_STAT_ADDR : Fin 256 := 0x39

/-- Modelled from the spec: self-test result register (`self-test-result 0x36`). -/
def BNO055_SELFTSTRES_ADDR : Fin 256 := 0x36

/-- Modelled from the spec: system-error register (`system-error 0x3A`). -/
def BNO055_SYS_ERR_ADDR : Fin 256 := 0x3A

/-- Modelled from the spec: unit-selection register (`unit-selection 0x3B`). -/
def BNO055_UNIT_SEL_ADDR : Fin 256 := 0x3B

/-- Modelled from the spec: temperature register (`temperature 0x34`). -/
def BNO055_TEMP_ADDR : Fin 256 := 0x34

/-! ### Operation modes (`bno055_opmode_t`, `getbno055.h`) -/

inductive bno055_opmode_t where
  | OPMODE_CONFIG
  | OPMODE_ACCONLY
  | OPMODE_MAGONLY
  | OPMODE_GYRONLY
  | OPMODE_ACCMAG
  | OPMODE_ACCGYRO
  | OPMODE_MAGGYRO
  | OPMODE_AMG
  | OPMODE_IMUPLUS
  | OPMODE_COMPASS
  | OPMODE_M4G
  | OPMODE_NDOF_FMC_OFF
  | OPMODE_NDOF
  deriving DecidableEq

/-- Register value of each operating mode (`getbno055.h` lines 10-22). -/
def opmodeVal : bno055_opmode_t → Fin 256
  | .OPMODE_CONFIG       => 0x00
  | .OPMODE_ACCONLY      => 0x01
  | .OPMODE_MAGONLY      => 0x02
  | .OPMODE_GYRONLY      => 0x03
  | .OPMODE_ACCMAG       => 0x04
  | .OPMODE_ACCGYRO      => 0x05
  | .OPMODE_MAGGYRO      => 0x06
  | .OPMODE_AMG          => 0x07
  | .OPMODE_IMUPLUS      => 0x08
  | .OPMODE_COMPASS      => 0x09
  | .OPMODE_M4G          => 0x0A
  | .OPMODE_NDOF_FMC_OFF => 0x0B
  | .OPMODE_NDOF         => 0x0C

/-! ### Driver data structures (`getbno055.h`, field usage in `i2c_bno055.c`) -/

/-- `struct bnocal`: four calibration-status fields and nine 16-bit
calibration offsets (stored in C `int` fields). -/
structure Bnocal where
  scal_st : Nat
  gcal_st : Nat
  acal_st : Nat
  mcal_st : Nat
  aoff_x : Int
  aoff_y : Int
  aoff_z : Int
  moff_x : Int
  moff_y : Int
  moff_z : Int
  goff_x : Int
  goff_y : Int
  goff_z : Int
  deriving DecidableEq

/-- An all-zero `struct bnocal` value. -/
def bnocal0 : Bnocal :=
  ⟨0, 0, 0, 0, 0, 0, 0, 0, 0, 0, 0, 0, 0⟩

/-- `struct bnoinf` as populated by `read_inf` in `i2c_bno055.c`
(the header revision under `src/` names the corresponding info struct
`bnover`; the fields are those `read_inf` assigns). -/
structure Bnoinf where
  chip_id : Nat
  acc_id : Nat
  mag_id : Nat
  gyr_id : Nat
  sw_lsb : Nat
  sw_msb : Nat
  bl_rev : Nat
  opr_mode : Nat
  sys_stat : Nat
  selftest : Nat
  sys_err : Nat
  unitsel : Nat
  temp_val : Nat
  deriving DecidableEq

/-- An all-zero info struct. -/
def bnoinf0 : Bnoinf :=
  ⟨0, 0, 0, 0, 0, 0, 0, 0, 0, 0, 0, 0, 0⟩

/-! ### Bus model -/

/-- One reply of the bus to one `write`/`read` system call. -/
inductive BusReply where
  | wr (transferred : Nat)
  | rd (bytes : List (Fin 256))
  deriving DecidableEq

/-- One operation attempted by the driver, as recorded in its trace. -/
inductive BusOp where
  | wr (data : List (Fin 256))
  | rd (count : Nat)
  | sleepMs (ms : Nat)
  deriving DecidableEq

/-- A `write(fd, payload, payload.length)` call: succeeds (returning the
remaining replies) iff the bus reports exactly `payload.length` bytes
transferred, mirroring the driver's `write(...) != n` checks. -/
def tryWrite (payload : List (Fin 256)) : List BusReply → Option (List BusReply)
  | BusReply.wr t :: rest => if t = payload.length then some rest else none
  | _ => none

/-- A `read(fd, buf, count)` call: succeeds iff the bus delivers exactly
`count` bytes, mirroring the driver's `read(...) != n` checks. -/
def tryRead (count : Nat) : List BusReply → Option (List (Fin 256) × List BusReply)
  | BusReply.rd bs :: rest => if bs.length = count then some (bs, rest) else none
  | _ => none

/-! ### `stat_cal` (`i2c_bno055.c` lines 134-156) -/

/-- `stat_cal`: select register 0x35, read one byte, unpack the four
2-bit calibration-status fields.  Returns the C return code, the
(possibly updated) `struct bnocal` and the trace of attempted bus
operations. -/
def stat_cal (bus : List BusReply) (bno : Bnocal) : Int × Bnocal × List BusOp :=
  match tryWrite [BNO055_CALIB_STAT_ADDR] bus with
  | none => (-1, bno, [BusOp.wr [BNO055_CALIB_STAT_ADDR]])
  | some bus1 =>
    match tryRead 1 bus1 with
    | none => (-1, bno, [BusOp.wr [BNO055_CALIB_STAT_ADDR], BusOp.rd 1])
    | some (d, _) =>
      let data := (d.getD 0 0).val
      (0,
       { bno with
         scal_st := (data &&& 0b11000000) >>> 6
         gcal_st := (data &&& 0b00110000) >>> 4
         acal_st := (data &&& 0b00001100) >>> 2
         mcal_st := data &&& 0b00000011 },
       [BusOp.wr [BNO055_CALIB_STAT_ADDR], BusOp.rd 1])

/-! ### `read_cal` (`i2c_bno055.c` lines 158-194) -/

/-- `read_cal`: select register 0x55, read the 18-byte offset block and
decode the nine offsets as `low_byte + high_byte * 256`. -/
def read_cal (bus : List BusReply) (bno : Bnocal) : Int × Bnocal × List BusOp :=
  match tryWrite [ACCEL_OFFSET_X_LSB_ADDR] bus with
  | none => (-1, bno, [BusOp.wr [ACCEL_OFFSET_X_LSB_ADDR]])
  | some bus1 =>
    match tryRead 18 bus1 with
    | none => (-1, bno, [BusOp.wr [ACCEL_OFFSET_X_LSB_ADDR], BusOp.rd 18])
    | some (d, _) =>
      let b : Nat → Int := fun i => ((d.getD i 0).val : Int)
      (0,
       { bno with
         aoff_x := b 0 + b 1 * 256
         aoff_y := b 2 + b 3 * 256
         aoff_z := b 4 + b 5 * 256
         moff_x := b 6 + b 7 * 256
         moff_y := b 8 + b 9 * 256
         moff_z := b 10 + b 11 * 256
         goff_x := b 12 + b 13 * 256
         goff_y := b 14 + b 15 * 256
         goff_z := b 16 + b 17 * 256 },
       [BusOp.wr [ACCEL_OFFSET_X_LSB_ADDR], BusOp.rd 18])

/-! ### `decode_units` (`i2c_bno055.c` lines 199-231) and the
unit-selection decode of the `inf` path of `main` (`getbno055.c`) -/

/-- The decisions `decode_units` prints, one `Bool` per unit field
(`true` is the first alternative of each `if`). -/
structure UnitsDecoded where
  accel_mg : Bool
  gyro_rps : Bool
  euler_radians : Bool
  temp_fahrenheit : Bool
  orient_android : Bool
  deriving DecidableEq

/-- `decode_units`: bit extraction exactly as written in the source,
including the orientation test `(unit_sel >> 3) & 0x01` that sits under
the `bit-7` comment. -/
def decode_units (unit_sel : Nat) : UnitsDecoded :=
  { accel_mg := (unit_sel >>> 0) &&& 0x01 = 1
    gyro_rps := (unit_sel >>> 1) &&& 0x01 = 1
    euler_radians := (unit_sel >>> 2) &&& 0x01 = 1
    temp_fahrenheit := (unit_sel >>> 4) &&& 0x01 = 1
    orient_android := (unit_sel >>> 3) &&& 0x01 = 1 }

/-- Orientation decode of the `inf` path of `main` (`getbno055.c`
lines 888-891): `(bnoi.unitsel >> 7) & 0x01` selects Android. -/
def inf_orient_android (unitsel : Nat) : Bool :=
  (unitsel >>> 7) &&& 0x01 = 1

/-! ### `read_inf` (`i2c_bno055.c` lines 237-401) -/

/-- One register-select write followed by a single-byte read, the
pattern `read_inf` repeats for registers 0x3D, 0x39, 0x36, 0x3A, 0x3B
and 0x34. -/
def readRegByte (reg : Fin 256) (bus : List BusReply) :
    Option (Fin 256 × List BusReply) :=
  match tryWrite [reg] bus with
  | none => none
  | some bus1 =>
    match tryRead 1 bus1 with
    | none => none
    | some (d, bus2) => some (d.getD 0 0, bus2)

/-- `read_inf`: a 7-byte burst from register 0x00 (chip/component IDs,
firmware revision, bootloader revision) followed by six single-byte
register reads; fields are assigned as soon as their transfer
succeeds, so a later failure leaves earlier assignments in place. -/
def read_inf (bus : List BusReply) (bno : Bnoinf) : Int × Bnoinf :=
  match tryWrite [BNO055_CHIP_ID_ADDR] bus with
  | none => (-1, bno)
  | some bus1 =>
  match tryRead 7 bus1 with
  | none => (-1, bno)
  | some (d, bus2) =>
    let bno2 := { bno with
      chip_id := (d.getD 0 0).val
      acc_id := (d.getD 1 0).val
      mag_id := (d.getD 2 0).val
      gyr_id := (d.getD 3 0).val
      sw_lsb := (d.getD 4 0).val
      sw_msb := (d.getD 5 0).val
      bl_rev := (d.getD 6 0).val }
    match readRegByte BNO055_OPR_MODE_ADDR bus2 with
    | none => (-1, bno2)
    | some (b, bus3) =>
      let bno3 := { bno2 with opr_mode := b.val &&& 0x0F }
      match readRegByte BNO055_SYS_STAT_ADDR bus3 with
      | none => (-1, bno3)
      | some (b, bus4) =>
        let bno4 := { bno3 with sys_stat := b.val }
        match readRegByte BNO055_SELFTSTRES_ADDR bus4 with
        | none => (-1, bno4)
        | some (b, bus5) =>
          let bno5 := { bno4 with selftest := b.val &&& 0x0F }
          match readRegByte BNO055_SYS_ERR_ADDR bus5 with
          | none => (-1, bno5)
          | some (b, bus6) =>
            let bno6 := { bno5 with sys_err := b.val }
            match readRegByte BNO055_UNIT_SEL_ADDR bus6 with
            | none => (-1, bno6)
            | some (b, bus7) =>
              let bno7 := { bno6 with unitsel := b.val }
              match readRegByte BNO055_TEMP_ADDR bus7 with
              | none => (-1, bno7)
              | some (b, _) => (0, { bno7 with temp_val := b.val })

/-! ### `set_mode` (`i2c_bno055.c` lines 407-421) and `bno_reset`
(lines 50-61) -/

/-- `set_mode`: write `[0x3D, mode]`, then block for 30ms
(`usleep(30 * 1000)`) before returning.  Also returns the replies left
unconsumed, for use by `set_defaults`. -/
def set_mode (mode : Fin 256) (bus : List BusReply) :
    Int × List BusOp × List BusReply :=
  match tryWrite [BNO055_OPR_MODE_ADDR, mode] bus with
  | none => (-1, [BusOp.wr [BNO055_OPR_MODE_ADDR, mode]], bus)
  | some bus1 =>
    (0, [BusOp.wr [BNO055_OPR_MODE_ADDR, mode], BusOp.sleepMs 30], bus1)

/-- `bno_reset`: write `[0x3F, 0x20]`, then block for 50ms
(`usleep(50 * 1000)`) before returning. -/
def bno_reset (bus : List BusReply) : Int × List BusOp :=
  match tryWrite [BNO055_SYS_TRIGGER_ADDR, 0x20] bus with
  | none => (-1, [BusOp.wr [BNO055_SYS_TRIGGER_ADDR, 0x20]])
  | some _ =>
    (0, [BusOp.wr [BNO055_SYS_TRIGGER_ADDR, 0x20], BusOp.sleepMs 50])

/-! ### `set_defaults` (`i2c_bno055.c` lines 63-128) -/

/-- How `set_defaults` ends: a `return code;` or an `exit(code);`. -/
inductive SDOutcome where
  | ret (code : Int)
  | exited (code : Int)
  deriving DecidableEq

/-- `set_defaults`: chip-ID check (two reads; a 1-second wait is
inserted between them only when the first byte differs from 0xA0; the
program exits if the second byte differs from 0xA0), then
`set_mode(ndof)` (exiting on failure), then the power-mode write with
its 10ms settle, then the page-ID write. -/
def set_defaults (bus : List BusReply) : SDOutcome × List BusOp :=
  match tryWrite [BNO055_CHIP_ID_ADDR] bus with
  | none => (.ret (-1), [BusOp.wr [BNO055_CHIP_ID_ADDR]])
  | some bus1 =>
  match tryRead 1 bus1 with
  | none => (.ret (-1), [BusOp.wr [BNO055_CHIP_ID_ADDR], BusOp.rd 1])
  | some (d, bus2) =>
  let ops0 : List BusOp :=
    if d.getD 0 0 = BNO055_ID then
      [BusOp.wr [BNO055_CHIP_ID_ADDR], BusOp.rd 1]
    else
      [BusOp.wr [BNO055_CHIP_ID_ADDR], BusOp.rd 1, BusOp.sleepMs 1000]
  match tryWrite [BNO055_CHIP_ID_ADDR] bus2 with
  | none => (.ret (-1), ops0 ++ [BusOp.wr [BNO055_CHIP_ID_ADDR]])
  | some bus3 =>
  let ops1 := ops0 ++ [BusOp.wr [BNO055_CHIP_ID_ADDR], BusOp.rd 1]
  match tryRead 1 bus3 with
  | none => (.ret (-1), ops1)
  | some (d2, bus4) =>
  if d2.getD 0 0 = BNO055_ID then
    match set_mode (opmodeVal .OPMODE_NDOF) bus4 with
    | (code, mops, bus5) =>
      let ops2 := ops1 ++ mops
      if code = 0 then
        match tryWrite [BNO055_PWR_MODE_ADDR, POWER_MODE_NORMAL] bus5 with
        | none =>
          (.ret (-1), ops2 ++ [BusOp.wr [BNO055_PWR_MODE_ADDR, POWER_MODE_NORMAL]])
        | some bus6 =>
          let ops3 := ops2 ++ [BusOp.wr [BNO055_PWR_MODE_ADDR, POWER_MODE_NORMAL],
                               BusOp.sleepMs 10]
          match tryWrite [BNO055_PAGE_ID_ADDR, 0x00] bus6 with
          | none => (.ret (-1), ops3 ++ [BusOp.wr [BNO055_PAGE_ID_ADDR, 0x00]])
          | some _ => (.ret 0, ops3 ++ [BusOp.wr [BNO055_PAGE_ID_ADDR, 0x00]])
      else (.exited (-1), ops2)
  else (.exited (-1), ops1)

/-! ### The signed reinterpretation of a raw 16-bit offset -/

/-- Modelled from the spec: the two's-complement reinterpretation of a
raw 16-bit register value that §4.4 requires of downstream consumers;
the driver source itself never performs this step (it stores and prints
the raw unsigned value), so the function is defined canonically here by
centering the 16-bit residue on zero. -/
def sint16 (v : Int) : Int :=
  (v + 32768) % 65536 - 32768

/-! ### Concrete traces and decode abbreviations used in the theorems -/

/-- The raw 16-bit value `data[i] + data[i+1] * 256` that `read_cal`
assigns to each offset field. -/
def rawOff (d : List (Fin 256)) (i : Nat) : Int :=
  ((d.getD i 0).val : Int) + ((d.getD (i + 1) 0).val : Int) * 256

/-- A fully successful `read_inf` reply trace in which the
operating-mode register read returns the byte `b` and every other
register reads as zero. -/
def infBus (b : Fin 256) : List BusReply :=
  [BusReply.wr 1, BusReply.rd (List.replicate 7 0),
   BusReply.wr 1, BusReply.rd [b],
   BusReply.wr 1, BusReply.rd [0],
   BusReply.wr 1, BusReply.rd [0],
   BusReply.wr 1, BusReply.rd [0],
   BusReply.wr 1, BusReply.rd [0],
   BusReply.wr 1, BusReply.rd [0]]

/-- A reply trace on which `set_defaults` runs to completion: both
chip-ID reads return 0xA0 and every write transfers in full. -/
def sdBusOK : List BusReply :=
  [BusReply.wr 1, BusReply.rd [0xA0],
   BusReply.wr 1, BusReply.rd [0xA0],
   BusReply.wr 2, BusReply.wr 2, BusReply.wr 2]

/-- A reply trace for `read_inf` whose 7-byte burst succeeds (with the
chip's default identity bytes) but whose next read, of the
operating-mode register, delivers zero bytes. -/
def infBusTrunc : List BusReply :=
  [BusReply.wr 1, BusReply.rd [0xA0, 0xFB, 0x32, 0x0F, 0x11, 0x03, 0x15],
   BusReply.wr 1, BusReply.rd []]

/-! ### Helper lemmas -/

set_option maxRecDepth 8192 in
/-- The four masked-and-shifted calibration fields equal the 2-bit
groups at bits 7-6, 5-4, 3-2 and 1-0, and are bounded by 3. -/
lemma calStatusBits : ∀ d : Fin 256,
    ((d.val &&& 0b11000000) >>> 6 = (d.val >>> 6) &&& 3) ∧
    ((d.val &&& 0b00110000) >>> 4 = (d.val >>> 4) &&& 3) ∧
    ((d.val &&& 0b00001100) >>> 2 = (d.val >>> 2) &&& 3) ∧
    ((d.val &&& 0b11000000) >>> 6 ≤ 3) ∧
    ((d.val &&& 0b00110000) >>> 4 ≤ 3) ∧
    ((d.val &&& 0b00001100) >>> 2 ≤ 3) ∧
    (d.val &&& 0b00000011 ≤ 3) := by
  decide

/-- Each raw offset decoded from bus bytes lies in the unsigned 16-bit
range. -/
lemma rawOff_bounds (d : List (Fin 256)) (i : Nat) :
    0 ≤ rawOff d i ∧ rawOff d i ≤ 65535 := by
  unfold rawOff
  have h1 := (d.getD i 0).isLt
  have h2 := (d.getD (i + 1) 0).isLt
  omega

/-- On a well-formed reply trace delivering an 18-byte block,
`read_cal` succeeds and assigns exactly the nine raw offsets. -/
lemma read_cal_success (d : List (Fin 256)) (bno : Bnocal) (h : d.length = 18) :
    read_cal [BusReply.wr 1, BusReply.rd d] bno =
      (0,
       { bno with
         aoff_x := rawOff d 0
         aoff_y := rawOff d 2
         aoff_z := rawOff d 4
         moff_x := rawOff d 6
         moff_y := rawOff d 8
         moff_z := rawOff d 10
         goff_x := rawOff d 12
         goff_y := rawOff d 14
         goff_z := rawOff d 16 },
       [BusOp.wr [ACCEL_OFFSET_X_LSB_ADDR], BusOp.rd 18]) := by
  simp [read_cal, tryWrite, tryRead, h, rawOff]

/-- The two's-complement reinterpretation agrees with the piecewise
description on the unsigned 16-bit domain. -/
lemma sint16_piecewise (v : Int) (h0 : 0 ≤ v) (h1 : v ≤ 65535) :
    sint16 v = if 32768 ≤ v then v - 65536 else v := by
  unfold sint16
  split <;> omega

/-! ### Claim theorems -/

/-- Claim C1: for every 18-byte calibration block read by `read_cal`, each of
the nine 16-bit offset fields is decoded as `low_byte + high_byte * 256`
(`rawOff`) and the resulting raw value lies in [0, 65535], for all
possible byte contents of the block. -/
theorem read_cal_decodes_unsigned16 :
    ∀ (d : List (Fin 256)) (bno : Bnocal), d.length = 18 →
      (read_cal [BusReply.wr 1, BusReply.rd d] bno).1 = 0 ∧
      (read_cal [BusReply.wr 1, BusReply.rd d] bno).2.1.aoff_x = rawOff d 0 ∧
      (read_cal [BusReply.wr 1, BusReply.rd d] bno).2.1.aoff_y = rawOff d 2 ∧
      (read_cal [BusReply.wr 1, BusReply.rd d] bno).2.1.aoff_z = rawOff d 4 ∧
      (read_cal [BusReply.wr 1, BusReply.rd d] bno).2.1.moff_x = rawOff d 6 ∧
      (read_cal [BusReply.wr 1, BusReply.rd d] bno).2.1.moff_y = rawOff d 8 ∧
      (read_cal [BusReply.wr 1, BusReply.rd d] bno).2.1.moff_z = rawOff d 10 ∧
      (read_cal [BusReply.wr 1, BusReply.rd d] bno).2.1.goff_x = rawOff d 12 ∧
      (read_cal [BusReply.wr 1, BusReply.rd d] bno).2.1.goff_y = rawOff d 14 ∧
      (read_cal [BusReply.wr 1, BusReply.rd d] bno).2.1.goff_z = rawOff d 16 ∧
      (∀ i : Nat, 0 ≤ rawOff d i ∧ rawOff d i ≤ 65535) := by
  intro d bno h
  rw [read_cal_success d bno h]
  exact ⟨rfl, rfl, rfl, rfl, rfl, rfl, rfl, rfl, rfl, rfl,
         fun i => rawOff_bounds d i⟩

/-- Witness for C1: the theorem applied to the all-zero 18-byte block. -/
theorem read_cal_decodes_unsigned16_witness :
    (List.replicate 18 (0 : Fin 256)).length = 18 ∧
    (read_cal [BusReply.wr 1, BusReply.rd (List.replicate 18 (0 : Fin 256))]
        bnocal0).1 = 0 :=
  ⟨by decide,
   (read_cal_decodes_unsigned16 (List.replicate 18 0) bnocal0 (by decide)).1⟩

/-- Claim C2: the signed reinterpretation of a raw 16-bit offset maps values
at least 32768 to `value - 65536` and leaves smaller values unchanged;
65535 decodes to -1, 32768 to -32768, 0 to 0 and 32767 to 32767; and
every offset produced by `read_cal` is in the domain where that
piecewise description applies. -/
theorem signed_reinterpretation_of_offsets :
    (∀ v : Int, 0 ≤ v → v ≤ 65535 →
        sint16 v = if 32768 ≤ v then v - 65536 else v) ∧
    sint16 65535 = -1 ∧
    sint16 32768 = -32768 ∧
    sint16 0 = 0 ∧
    sint16 32767 = 32767 ∧
    (∀ (d : List (Fin 256)) (bno : Bnocal), d.length = 18 →
      ∀ v ∈ [(read_cal [BusReply.wr 1, BusReply.rd d] bno).2.1.aoff_x,
             (read_cal [BusReply.wr 1, BusReply.rd d] bno).2.1.aoff_y,
             (read_cal [BusReply.wr 1, BusReply.rd d] bno).2.1.aoff_z,
             (read_cal [BusReply.wr 1, BusReply.rd d] bno).2.1.moff_x,
             (read_cal [BusReply.wr 1, BusReply.rd d] bno).2.1.moff_y,
             (read_cal [BusReply.wr 1, BusReply.rd d] bno).2.1.moff_z,
             (read_cal [BusReply.wr 1, BusReply.rd d] bno).2.1.goff_x,
             (read_cal [BusReply.wr 1, BusReply.rd d] bno).2.1.goff_y,
             (read_cal [BusReply.wr 1, BusReply.rd d] bno).2.1.goff_z],
        sint16 v = if 32768 ≤ v then v - 65536 else v) := by
  refine ⟨fun v h0 h1 => sint16_piecewise v h0 h1,
          by decide, by decide, by decide, by decide, ?_⟩
  intro d bno h v hv
  rw [read_cal_success d bno h] at hv
  simp only [List.mem_cons, List.mem_singleton, List.not_mem_nil, or_false] at hv
  rcases hv with h0 | h0 | h0 | h0 | h0 | h0 | h0 | h0 | h0 <;> subst h0 <;>
    exact sint16_piecewise _ (rawOff_bounds d _).1 (rawOff_bounds d _).2

/-- Witness for C2: the piecewise description applied to the concrete
raw value 40000, and to the offset read from an all-zero block. -/
theorem signed_reinterpretation_of_offsets_witness :
    (sint16 40000 = if 32768 ≤ (40000 : Int) then 40000 - 65536 else 40000) ∧
    (sint16 0 = if 32768 ≤ (0 : Int) then (0 : Int) - 65536 else 0) :=
  ⟨signed_reinterpretation_of_offsets.1 40000 (by decide) (by decide),
   signed_reinterpretation_of_offsets.2.2.2.2.2 (List.replicate 18 0) bnocal0
     (by decide) 0 (by decide)⟩

/-- Claim C3: for every status byte, `stat_cal` extracts the four 2-bit
calibration fields from bits 7-6, 5-4, 3-2 and 1-0, each in [0, 3]; the
byte 0b11001101 decodes to system 3, gyro 0, accel 3, mag 1. -/
theorem stat_cal_status_decode :
    ∀ (d : Fin 256) (bno : Bnocal),
      (stat_cal [BusReply.wr 1, BusReply.rd [d]] bno).1 = 0 ∧
      (stat_cal [BusReply.wr 1, BusReply.rd [d]] bno).2.1.scal_st =
        (d.val >>> 6) &&& 3 ∧
      (stat_cal [BusReply.wr 1, BusReply.rd [d]] bno).2.1.gcal_st =
        (d.val >>> 4) &&& 3 ∧
      (stat_cal [BusReply.wr 1, BusReply.rd [d]] bno).2.1.acal_st =
        (d.val >>> 2) &&& 3 ∧
      (stat_cal [BusReply.wr 1, BusReply.rd [d]] bno).2.1.mcal_st =
        d.val &&& 3 ∧
      (stat_cal [BusReply.wr 1, BusReply.rd [d]] bno).2.1.scal_st ≤ 3 ∧
      (stat_cal [BusReply.wr 1, BusReply.rd [d]] bno).2.1.gcal_st ≤ 3 ∧
      (stat_cal [BusReply.wr 1, BusReply.rd [d]] bno).2.1.acal_st ≤ 3 ∧
      (stat_cal [BusReply.wr 1, BusReply.rd [d]] bno).2.1.mcal_st ≤ 3 ∧
      (stat_cal [BusReply.wr 1, BusReply.rd [(0b11001101 : Fin 256)]]
          bnocal0).2.1.scal_st = 3 ∧
      (stat_cal [BusReply.wr 1, BusReply.rd [(0b11001101 : Fin 256)]]
          bnocal0).2.1.gcal_st = 0 ∧
      (stat_cal [BusReply.wr 1, BusReply.rd [(0b11001101 : Fin 256)]]
          bnocal0).2.1.acal_st = 3 ∧
      (stat_cal [BusReply.wr 1, BusReply.rd [(0b11001101 : Fin 256)]]
          bnocal0).2.1.mcal_st = 1 := by
  intro d bno
  obtain ⟨e1, e2, e3, b1, b2, b3, b4⟩ := calStatusBits d
  exact ⟨rfl, e1, e2, e3, rfl, b1, b2, b3, b4,
         by decide, by decide, by decide, by decide⟩

/-- Claim C9: `stat_cal` modifies only the four calibration-status fields;
the nine offset fields keep their previous values on every execution,
successful or failed. -/
theorem stat_cal_preserves_offsets :
    ∀ (bus : List BusReply) (bno : Bnocal),
      (stat_cal bus bno).2.1.aoff_x = bno.aoff_x ∧
      (stat_cal bus bno).2.1.aoff_y = bno.aoff_y ∧
      (stat_cal bus bno).2.1.aoff_z = bno.aoff_z ∧
      (stat_cal bus bno).2.1.moff_x = bno.moff_x ∧
      (stat_cal bus bno).2.1.moff_y = bno.moff_y ∧
      (stat_cal bus bno).2.1.moff_z = bno.moff_z ∧
      (stat_cal bus bno).2.1.goff_x = bno.goff_x ∧
      (stat_cal bus bno).2.1.goff_y = bno.goff_y ∧
      (stat_cal bus bno).2.1.goff_z = bno.goff_z := by
  intro bus bno
  rcases hw : tryWrite [BNO055_CALIB_STAT_ADDR] bus with _ | bus1
  · simp [stat_cal, hw]
  · rcases hr : tryRead 1 bus1 with _ | ⟨dd, rest⟩
    · simp [stat_cal, hw, hr]
    · simp [stat_cal, hw, hr]

/-- Claim C10: `read_cal` selects the accelerometer-offset-X-LSB register and
requests exactly 18 bytes in its single read; no 22-byte radius block is
ever requested, and the calibration-status fields of the result are left
untouched (only the nine offsets are decoded). -/
theorem read_cal_requests_exactly_18 :
    ∀ (bus : List BusReply) (bno : Bnocal),
      ((read_cal bus bno).2.2 = [BusOp.wr [ACCEL_OFFSET_X_LSB_ADDR]] ∨
       (read_cal bus bno).2.2 =
         [BusOp.wr [ACCEL_OFFSET_X_LSB_ADDR], BusOp.rd 18]) ∧
      (read_cal bus bno).2.1.scal_st = bno.scal_st ∧
      (read_cal bus bno).2.1.gcal_st = bno.gcal_st ∧
      (read_cal bus bno).2.1.acal_st = bno.acal_st ∧
      (read_cal bus bno).2.1.mcal_st = bno.mcal_st := by
  intro bus bno
  rcases hw : tryWrite [ACCEL_OFFSET_X_LSB_ADDR] bus with _ | bus1
  · simp [read_cal, hw]
  · rcases hr : tryRead 18 bus1 with _ | ⟨dd, rest⟩
    · simp [read_cal, hw, hr]
    · simp [read_cal, hw, hr]

/-- Claim C6: for each of the 13 operation modes, `set_mode` writes the
mode's register value to the operating-mode register (then settles), and
the operating-mode read-back of `read_inf` — which masks the register to
its low 4 bits — returns that same value when the device delivers the
stored byte. -/
theorem set_mode_roundtrips_opmode :
    ∀ (m : bno055_opmode_t) (bno : Bnoinf),
      (set_mode (opmodeVal m) [BusReply.wr 2]).1 = 0 ∧
      (set_mode (opmodeVal m) [BusReply.wr 2]).2.1 =
        [BusOp.wr [BNO055_OPR_MODE_ADDR, opmodeVal m], BusOp.sleepMs 30] ∧
      (read_inf (infBus (opmodeVal m)) bno).1 = 0 ∧
      (read_inf (infBus (opmodeVal m)) bno).2.opr_mode = (opmodeVal m).val := by
  intro m bno
  cases m <;> exact ⟨rfl, rfl, rfl, rfl⟩

set_option maxRecDepth 8192 in
/-- Claim C8: `decode_units` derives the orientation convention from bit 3 of
the unit-selection byte — `(unit_sel >> 3) & 0x01`, despite the `bit-7`
comment above it — while the `inf` path of `main` uses bit 7; the two
disagree on 0x80 (bit 7 set) and on 0x08 (bit 3 set). -/
theorem decode_units_orientation_uses_bit3 :
    (decode_units 0x80).orient_android = false ∧
    inf_orient_android 0x80 = true ∧
    (decode_units 0x08).orient_android = true ∧
    inf_orient_android 0x08 = false ∧
    (∀ u : Fin 256,
      (decode_units u.val).orient_android = decide ((u.val >>> 3) &&& 1 = 1) ∧
      inf_orient_android u.val = decide ((u.val >>> 7) &&& 1 = 1)) := by
  decide

/-- Claim C7: after every successful transition write the operation blocks
for the mandated settle delay before returning: `set_mode` sleeps 30ms
after the operating-mode write, `bno_reset` sleeps 50ms after the reset
trigger, and `set_defaults` sleeps 10ms after the power-mode write
(before issuing the final page-ID write and returning). -/
theorem settle_delays_after_transition_writes :
    (∀ (mode : Fin 256) (bus : List BusReply),
       (set_mode mode bus).1 = 0 →
       (set_mode mode bus).2.1 =
         [BusOp.wr [BNO055_OPR_MODE_ADDR, mode], BusOp.sleepMs 30]) ∧
    (∀ bus : List BusReply,
       (bno_reset bus).1 = 0 →
       (bno_reset bus).2 =
         [BusOp.wr [BNO055_SYS_TRIGGER_ADDR, 0x20], BusOp.sleepMs 50]) ∧
    (∀ bus : List BusReply,
       (set_defaults bus).1 = SDOutcome.ret 0 →
       ∃ pre, (set_defaults bus).2 =
         pre ++ [BusOp.wr [BNO055_PWR_MODE_ADDR, POWER_MODE_NORMAL],
                 BusOp.sleepMs 10,
                 BusOp.wr [BNO055_PAGE_ID_ADDR, 0x00]]) := by
  refine ⟨?_, ?_, ?_⟩
  · intro mode bus h
    rcases hw : tryWrite [BNO055_OPR_MODE_ADDR, mode] bus with _ | bus1
    · simp [set_mode, hw] at h
    · simp [set_mode, hw]
  · intro bus h
    rcases hw : tryWrite [BNO055_SYS_TRIGGER_ADDR, 0x20] bus with _ | bus1
    · simp [bno_reset, hw] at h
    · simp [bno_reset, hw]
  · intro bus h
    unfold set_defaults at h ⊢
    rcases h1 : tryWrite [BNO055_CHIP_ID_ADDR] bus with _ | bus1 <;>
      simp only [h1] at h ⊢
    · simp at h
    rcases h2 : tryRead 1 bus1 with _ | ⟨d, bus2⟩ <;> simp only [h2] at h ⊢
    · simp at h
    rcases h3 : tryWrite [BNO055_CHIP_ID_ADDR] bus2 with _ | bus3 <;>
      simp only [h3] at h ⊢
    · simp at h
    rcases h4 : tryRead 1 bus3 with _ | ⟨d2, bus4⟩ <;> simp only [h4] at h ⊢
    · simp at h
    by_cases hid : d2.getD 0 0 = BNO055_ID <;> simp only [hid, if_pos, if_neg,
      ite_true, ite_false] at h ⊢
    · rcases h5 : tryWrite [BNO055_OPR_MODE_ADDR,
          opmodeVal bno055_opmode_t.OPMODE_NDOF] bus4 with _ | bus5 <;>
        simp only [set_mode, h5] at h ⊢
      · simp at h
      rcases h6 : tryWrite [BNO055_PWR_MODE_ADDR, POWER_MODE_NORMAL] bus5
          with _ | bus6 <;> simp only [h6] at h ⊢
      · simp at h
      rcases h7 : tryWrite [BNO055_PAGE_ID_ADDR, 0x00] bus6 with _ | bus7 <;>
        simp only [h7] at h ⊢
      · simp at h
      · refine ⟨(if d.getD 0 0 = BNO055_ID then
            [BusOp.wr [BNO055_CHIP_ID_ADDR], BusOp.rd 1]
          else
            [BusOp.wr [BNO055_CHIP_ID_ADDR], BusOp.rd 1, BusOp.sleepMs 1000]) ++
          [BusOp.wr [BNO055_CHIP_ID_ADDR], BusOp.rd 1,
           BusOp.wr [BNO055_OPR_MODE_ADDR, opmodeVal bno055_opmode_t.OPMODE_NDOF],
           BusOp.sleepMs 30], ?_⟩
        simp
    · simp at h

/-- Witness for C7: the settle-delay traces at concrete reply lists on
which each transition write succeeds. -/
theorem settle_delays_witness :
    (set_mode 0x0C [BusReply.wr 2]).2.1 =
      [BusOp.wr [BNO055_OPR_MODE_ADDR, 0x0C], BusOp.sleepMs 30] ∧
    (bno_reset [BusReply.wr 2]).2 =
      [BusOp.wr [BNO055_SYS_TRIGGER_ADDR, 0x20], BusOp.sleepMs 50] ∧
    ∃ pre, (set_defaults sdBusOK).2 =
      pre ++ [BusOp.wr [BNO055_PWR_MODE_ADDR, POWER_MODE_NORMAL],
              BusOp.sleepMs 10,
              BusOp.wr [BNO055_PAGE_ID_ADDR, 0x00]] :=
  ⟨settle_delays_after_transition_writes.1 0x0C [BusReply.wr 2] rfl,
   settle_delays_after_transition_writes.2.1 [BusReply.wr 2] rfl,
   settle_delays_after_transition_writes.2.2 sdBusOK rfl⟩

/-- Counterexample to C4: on a trace whose first chip-ID read returns
exactly 0xA0, `set_defaults` still issues a second register-select write
and a second read — the retry is not conditioned on a first mismatch —
and the run is fatal because only the second byte (here 0x55) is
compared. -/
theorem set_defaults_retry_after_match :
    (0xA0 : Fin 256) = BNO055_ID ∧
    set_defaults [BusReply.wr 1, BusReply.rd [0xA0],
                  BusReply.wr 1, BusReply.rd [0x55]] =
      (SDOutcome.exited (-1),
       [BusOp.wr [BNO055_CHIP_ID_ADDR], BusOp.rd 1,
        BusOp.wr [BNO055_CHIP_ID_ADDR], BusOp.rd 1]) := by
  exact ⟨rfl, rfl⟩

/-- Claim C4 (amended): session setup reads the chip-ID register twice
unconditionally; the one-second wait is inserted between the reads only
when the first byte differs from 0xA0; fatality depends on the second
read alone — if its byte differs from 0xA0 the program exits with no
further register operation (in particular when both reads mismatch),
and if it equals 0xA0 setup proceeds to the mode write. -/
theorem set_defaults_identity_check :
    (∀ (b1 b2 : Fin 256) (rest : List BusReply),
        b1 ≠ BNO055_ID → b2 ≠ BNO055_ID →
        set_defaults (BusReply.wr 1 :: BusReply.rd [b1] ::
            BusReply.wr 1 :: BusReply.rd [b2] :: rest) =
          (SDOutcome.exited (-1),
           [BusOp.wr [BNO055_CHIP_ID_ADDR], BusOp.rd 1, BusOp.sleepMs 1000,
            BusOp.wr [BNO055_CHIP_ID_ADDR], BusOp.rd 1])) ∧
    (∀ (b2 : Fin 256) (rest : List BusReply),
        b2 ≠ BNO055_ID →
        set_defaults (BusReply.wr 1 :: BusReply.rd [(0xA0 : Fin 256)] ::
            BusReply.wr 1 :: BusReply.rd [b2] :: rest) =
          (SDOutcome.exited (-1),
           [BusOp.wr [BNO055_CHIP_ID_ADDR], BusOp.rd 1,
            BusOp.wr [BNO055_CHIP_ID_ADDR], BusOp.rd 1])) ∧
    (∀ (b1 : Fin 256) (rest : List BusReply),
        ∃ t, (set_defaults (BusReply.wr 1 :: BusReply.rd [b1] ::
            BusReply.wr 1 :: BusReply.rd [(0xA0 : Fin 256)] :: rest)).2 =
          (if b1 = BNO055_ID then
             [BusOp.wr [BNO055_CHIP_ID_ADDR], BusOp.rd 1]
           else
             [BusOp.wr [BNO055_CHIP_ID_ADDR], BusOp.rd 1, BusOp.sleepMs 1000]) ++
          [BusOp.wr [BNO055_CHIP_ID_ADDR], BusOp.rd 1,
           BusOp.wr [BNO055_OPR_MODE_ADDR,
                     opmodeVal bno055_opmode_t.OPMODE_NDOF]] ++ t) := by
  refine ⟨?_, ?_, ?_⟩
  · intro b1 b2 rest h1 h2
    simp [set_defaults, tryWrite, tryRead, h1, h2]
  · intro b2 rest h2
    have h2n : b2 ≠ (160 : Fin 256) := by simpa [BNO055_ID] using h2
    simp [set_defaults, tryWrite, tryRead, BNO055_ID, h2n]
  · intro b1 rest
    rcases rest with _ | ⟨r0, r1⟩
    · exact ⟨[], by simp [set_defaults, tryWrite, tryRead, BNO055_ID,
        set_mode]⟩
    rcases r0 with t0 | bs0
    · by_cases ht0 : t0 = 2
      · subst ht0
        rcases r1 with _ | ⟨r1h, r2⟩
        · exact ⟨[BusOp.sleepMs 30,
                  BusOp.wr [BNO055_PWR_MODE_ADDR, POWER_MODE_NORMAL]],
            by simp [set_defaults, tryWrite, tryRead, BNO055_ID, set_mode]⟩
        rcases r1h with t1 | bs1
        · by_cases ht1 : t1 = 2
          · subst ht1
            rcases r2 with _ | ⟨r2h, r3⟩
            · exact ⟨[BusOp.sleepMs 30,
                      BusOp.wr [BNO055_PWR_MODE_ADDR, POWER_MODE_NORMAL],
                      BusOp.sleepMs 10,
                      BusOp.wr [BNO055_PAGE_ID_ADDR, 0x00]],
                by simp [set_defaults, tryWrite, tryRead, BNO055_ID,
                  set_mode]⟩
            rcases r2h with t2 | bs2
            · by_cases ht2 : t2 = 2
              · subst ht2
                exact ⟨[BusOp.sleepMs 30,
                        BusOp.wr [BNO055_PWR_MODE_ADDR, POWER_MODE_NORMAL],
                        BusOp.sleepMs 10,
                        BusOp.wr [BNO055_PAGE_ID_ADDR, 0x00]],
                  by simp [set_defaults, tryWrite, tryRead, BNO055_ID,
                    set_mode]⟩
              · exact ⟨[BusOp.sleepMs 30,
                        BusOp.wr [BNO055_PWR_MODE_ADDR, POWER_MODE_NORMAL],
                        BusOp.sleepMs 10,
                        BusOp.wr [BNO055_PAGE_ID_ADDR, 0x00]],
                  by simp [set_defaults, tryWrite, tryRead, BNO055_ID,
                    set_mode, ht2]⟩
            · exact ⟨[BusOp.sleepMs 30,
                      BusOp.wr [BNO055_PWR_MODE_ADDR, POWER_MODE_NORMAL],
                      BusOp.sleepMs 10,
                      BusOp.wr [BNO055_PAGE_ID_ADDR, 0x00]],
                by simp [set_defaults, tryWrite, tryRead, BNO055_ID,
                  set_mode]⟩
          · exact ⟨[BusOp.sleepMs 30,
                    BusOp.wr [BNO055_PWR_MODE_ADDR, POWER_MODE_NORMAL]],
              by simp [set_defaults, tryWrite, tryRead, BNO055_ID,
                set_mode, ht1]⟩
        · exact ⟨[BusOp.sleepMs 30,
                  BusOp.wr [BNO055_PWR_MODE_ADDR, POWER_MODE_NORMAL]],
            by simp [set_defaults, tryWrite, tryRead, BNO055_ID, set_mode]⟩
      · exact ⟨[], by simp [set_defaults, tryWrite, tryRead, BNO055_ID,
          set_mode, ht0]⟩
    · exact ⟨[], by simp [set_defaults, tryWrite, tryRead, BNO055_ID,
        set_mode]⟩

/-- Witness for C4 (amended): both-mismatch and second-mismatch-only
traces, with every hypothesis discharged at concrete bytes. -/
theorem set_defaults_identity_check_witness :
    set_defaults [BusReply.wr 1, BusReply.rd [0x00],
                  BusReply.wr 1, BusReply.rd [0x00]] =
      (SDOutcome.exited (-1),
       [BusOp.wr [BNO055_CHIP_ID_ADDR], BusOp.rd 1, BusOp.sleepMs 1000,
        BusOp.wr [BNO055_CHIP_ID_ADDR], BusOp.rd 1]) ∧
    set_defaults [BusReply.wr 1, BusReply.rd [0xA0],
                  BusReply.wr 1, BusReply.rd [0x00]] =
      (SDOutcome.exited (-1),
       [BusOp.wr [BNO055_CHIP_ID_ADDR], BusOp.rd 1,
        BusOp.wr [BNO055_CHIP_ID_ADDR], BusOp.rd 1]) :=
  ⟨set_defaults_identity_check.1 0x00 0x00 [] (by decide) (by decide),
   set_defaults_identity_check.2.1 0x00 [] (by decide)⟩

/-- Counterexample to C5: on `infBusTrunc` the 7-byte burst of
`read_inf` succeeds but the following operating-mode read delivers zero
bytes; the call returns -1 yet the result structure differs from the
caller's — its first seven fields are already populated. -/
theorem read_inf_truncation_partial_population :
    (read_inf infBusTrunc bnoinf0).1 = -1 ∧
    (read_inf infBusTrunc bnoinf0).2 ≠ bnoinf0 ∧
    (read_inf infBusTrunc bnoinf0).2.chip_id = 0xA0 := by
  decide

/-- Claim C5 (amended): a truncated transfer makes `stat_cal` and `read_cal`
return -1 with the caller's structure unchanged; `read_inf` also
returns -1 on a truncated transfer, and leaves the structure unchanged
when the failure occurs in the initial transfer pair, but fields decoded
from transfers that had already succeeded remain assigned. -/
theorem truncated_transfer_handling :
    (∀ (bus : List BusReply) (bno : Bnocal),
        (stat_cal bus bno).1 = 0 ∨
        ((stat_cal bus bno).1 = -1 ∧ (stat_cal bus bno).2.1 = bno)) ∧
    (∀ (bus : List BusReply) (bno : Bnocal),
        (read_cal bus bno).1 = 0 ∨
        ((read_cal bus bno).1 = -1 ∧ (read_cal bus bno).2.1 = bno)) ∧
    (∀ (t : Nat) (rest : List BusReply) (bno : Bnoinf), t ≠ 1 →
        read_inf (BusReply.wr t :: rest) bno = (-1, bno)) ∧
    (∀ (d : List (Fin 256)) (rest : List BusReply) (bno : Bnoinf),
        d.length ≠ 7 →
        read_inf (BusReply.wr 1 :: BusReply.rd d :: rest) bno = (-1, bno)) := by
  refine ⟨?_, ?_, ?_, ?_⟩
  · intro bus bno
    rcases hw : tryWrite [BNO055_CALIB_STAT_ADDR] bus with _ | bus1
    · right; constructor <;> simp [stat_cal, hw]
    · rcases hr : tryRead 1 bus1 with _ | ⟨dd, rest⟩
      · right; constructor <;> simp [stat_cal, hw, hr]
      · left; simp [stat_cal, hw, hr]
  · intro bus bno
    rcases hw : tryWrite [ACCEL_OFFSET_X_LSB_ADDR] bus with _ | bus1
    · right; constructor <;> simp [read_cal, hw]
    · rcases hr : tryRead 18 bus1 with _ | ⟨dd, rest⟩
      · right; constructor <;> simp [read_cal, hw, hr]
      · left; simp [read_cal, hw, hr]
  · intro t rest bno h
    simp [read_inf, tryWrite, h]
  · intro d rest bno h
    simp [read_inf, tryWrite, tryRead, h]

/-- Witness for C5 (amended): `read_inf` on a truncated first write and
on a truncated 7-byte burst, structure returned unchanged. -/
theorem truncated_transfer_handling_witness :
    read_inf [BusReply.wr 2] bnoinf0 = (-1, bnoinf0) ∧
    read_inf [BusReply.wr 1, BusReply.rd []] bnoinf0 = (-1, bnoinf0) :=
  ⟨truncated_transfer_handling.2.2.1 2 [] bnoinf0 (by decide),
   truncated_transfer_handling.2.2.2 [] [] bnoinf0 (by decide)⟩

end BNO055
